import Mathlib

/-!
Verification of `src/elementtocsvtool.js` (Webpage Element Extractor).

The script runs one synchronous pass over a live document tree: it collects
records for buttons, form inputs, checkboxes/radios, selects, links, headings,
generic text containers and table headers, filters out records without an id or
class selector, serializes the survivors to CSV and triggers a download.

The DOM is shallowly embedded as a tree of element and text nodes.  Each
element carries the attributes the script reads (`id`, `className`, the `type`
attribute, `value`, `placeholder`, and `for` on labels).  `document.querySelectorAll`
becomes a filter over the pre-order listing of element nodes, which is exactly
document order.  The browser download and console side effects are modelled as
fields of an `ExtractionResult` value; the current date and the document title
are explicit parameters.
-/

/-- The attributes of a DOM element that the script reads.  `className` is
`Option String` because the script guards with `typeof element.className ===
'string'` (e.g. SVG elements expose a non-string `className`); `none` models a
non-string or absent class object.  `typeAttr` is the raw `type` attribute
(`""` when absent); `htmlFor` is the raw `for` attribute (CSS `[for="v"]`
requires the attribute to be present, so it is an `Option`). -/
structure ElemData where
  tagName : String
  id : String := ""
  className : Option String := none
  typeAttr : String := ""
  value : String := ""
  placeholder : String := ""
  htmlFor : Option String := none
deriving Repr, DecidableEq

/-- A DOM node: an element with children, or a text node. -/
inductive DomNode : Type where
  | elem (data : ElemData) (children : List DomNode)
  | text (s : String)

mutual

/-- `node.textContent`: concatenation of all descendant text node data. -/
def nodeText : DomNode → String
  | .text s => s
  | .elem _ cs => listText cs

/-- Concatenated text content of a list of sibling nodes, in order. -/
def listText : List DomNode → String
  | [] => ""
  | n :: ns => nodeText n ++ listText ns

end

mutual

/-- Pre-order (= document order) listing of the element nodes of a subtree,
the root included, each as its data paired with its children. -/
def elems : DomNode → List (ElemData × List DomNode)
  | .text _ => []
  | .elem d cs => (d, cs) :: elemsList cs

/-- Pre-order listing of the element nodes of a forest. -/
def elemsList : List DomNode → List (ElemData × List DomNode)
  | [] => []
  | n :: ns => elems n ++ elemsList ns

end

/-- JavaScript `a || b` on strings: the empty string is falsy. -/
def jsOr (a b : String) : String := if a = "" then b else a

/-- JavaScript `s.trim()`, modelled character-wise (leading and trailing
whitespace removed).  Defined over the character list so that it reduces in
the kernel. -/
def jsTrim (s : String) : String :=
  ⟨((s.data.dropWhile Char.isWhitespace).reverse.dropWhile Char.isWhitespace).reverse⟩

/-- JavaScript `s.toLowerCase()`, modelled character-wise. -/
def jsToLower (s : String) : String := ⟨s.data.map Char.toLower⟩

/-- JavaScript `s.replace(/"/g, '""')`: every double-quote character doubled. -/
def jsEscapeQuotes (s : String) : String :=
  ⟨s.data.foldr (fun c acc => if c = '"' then '"' :: '"' :: acc else c :: acc) []⟩

/-- The reflected `element.type` IDL property, as the script reads it.
For `INPUT` the attribute reflects with default `"text"`, for `BUTTON` with
default `"submit"`; `TEXTAREA.type` is the fixed string `"textarea"`;
elsewhere the raw attribute is reflected (empty when absent). -/
def jsType (d : ElemData) : String :=
  if d.tagName = "INPUT" then (if d.typeAttr = "" then "text" else d.typeAttr)
  else if d.tagName = "TEXTAREA" then "textarea"
  else if d.tagName = "BUTTON" then (if d.typeAttr = "" then "submit" else d.typeAttr)
  else d.typeAttr

/-- The `{type, value}` pair returned by `getElementIdentifier` (source lines
20-29). -/
structure Identifier where
  type : String
  value : String
deriving Repr, DecidableEq

/-- `getElementIdentifier(element)`: a non-empty `id` wins; otherwise a class
attribute that is a string (`typeof element.className === 'string'`), truthy,
and non-empty after trimming; otherwise the `none`/`no-id-or-class` sentinel. -/
def getElementIdentifier (d : ElemData) : Identifier :=
  if d.id ≠ "" then { type := "id", value := d.id }
  else
    match d.className with
    | some c =>
      if c ≠ "" ∧ jsTrim c ≠ "" then { type := "class", value := jsTrim c }
      else { type := "none", value := "no-id-or-class" }
    | none => { type := "none", value := "no-id-or-class" }

/-- `document.querySelector('label[for="<id>"]')`: the first element in
document order whose tag is `LABEL` and whose `for` attribute is present and
equal to `id`.  Note that when the queried element has no id, `element.id` is
`""` and the selector `label[for=""]` still matches a label carrying an
explicitly empty `for` attribute. -/
def labelFor (doc : DomNode) (id : String) : Option (ElemData × List DomNode) :=
  (elems doc).find? (fun p => p.1.tagName == "LABEL" && p.1.htmlFor == some id)

/-- `element.options` for a select, modelled as the `OPTION` element
descendants of the select in document order. -/
def selectOptions (cs : List DomNode) : List (ElemData × List DomNode) :=
  (elemsList cs).filter (fun p => p.1.tagName == "OPTION")

/-- `Array.from(element.options).map(opt => opt.textContent.trim()).join(', ')`
(source line 50). -/
def optionsText (cs : List DomNode) : String :=
  String.intercalate ", " ((selectOptions cs).map (fun p => jsTrim (listText p.2)))

/-- The 100-character truncation the script applies twice (source lines 51 and
66): `text.length > 100 ? text.substring(0, 100) + '...' : text`. -/
def truncate100 (s : String) : String :=
  if s.length > 100 then s.take 100 ++ "..." else s

/-- `getElementText(element)` (source lines 32-68), for an element with data
`d` and children `cs` inside document `doc` (the label lookups go through the
whole document). -/
def getElementText (doc : DomNode) (d : ElemData) (cs : List DomNode) : String :=
  if d.tagName = "INPUT" then
    if jsType d = "button" ∨ jsType d = "submit" then
      jsOr d.value (jsOr d.placeholder ("[" ++ jsType d ++ " button]"))
    else if jsType d = "checkbox" ∨ jsType d = "radio" then
      match labelFor doc d.id with
      | some lab => jsTrim (listText lab.2)
      | none => "[" ++ jsType d ++ "]"
    else
      jsOr d.placeholder ("[" ++ jsType d ++ " input]")
  else if d.tagName = "SELECT" then
    match labelFor doc d.id with
    | some lab => jsTrim (listText lab.2)
    | none => truncate100 (optionsText cs)
  else if d.tagName = "BUTTON" then
    jsOr (jsTrim (listText cs)) "[button]"
  else if d.tagName = "A" then
    jsOr (jsTrim (listText cs)) "[link]"
  else
    truncate100 (jsTrim (listText cs))

/-- One collected record (the object literals pushed into `elementsData`). -/
structure ElementRecord where
  element_type : String
  text_content : String
  selector_type : String
  selector_value : String
deriving Repr, DecidableEq

/-- The `[type="…"]` annotation appended to the lowercased tag name when
`element.type` is truthy (source lines 77 and 93). -/
def typeAnnot (d : ElemData) : String :=
  if jsType d = "" then "" else "[type=\"" ++ jsType d ++ "\"]"

/-- Selector `button, input[type="button"], input[type="submit"]` (line 71). -/
def buttonSel (d : ElemData) : Bool :=
  d.tagName == "BUTTON" || (d.tagName == "INPUT" && d.typeAttr == "button")
    || (d.tagName == "INPUT" && d.typeAttr == "submit")

/-- Body of the `buttons.forEach` (source lines 72-83). -/
def mkButton (doc : DomNode) (d : ElemData) (cs : List DomNode) : Option ElementRecord :=
  let identifier := getElementIdentifier d
  let text := getElementText doc d cs
  if text ≠ "" then
    some { element_type := jsToLower d.tagName ++ typeAnnot d
           text_content := text
           selector_type := identifier.type
           selector_value := identifier.value }
  else none

/-- The buttons pass: `document.querySelectorAll` keeps document order, so it
is a filter over the pre-order element listing. -/
def buttonsPass (doc : DomNode) : List ElementRecord :=
  ((elems doc).filter (fun p => buttonSel p.1)).filterMap (fun p => mkButton doc p.1 p.2)

/-- Selector `input[type="text"], …, input[type="url"], textarea` (line 86). -/
def inputSel (d : ElemData) : Bool :=
  (d.tagName == "INPUT" &&
    (d.typeAttr == "text" || d.typeAttr == "password" || d.typeAttr == "email"
      || d.typeAttr == "number" || d.typeAttr == "search" || d.typeAttr == "tel"
      || d.typeAttr == "url"))
    || d.tagName == "TEXTAREA"

/-- Body of the `inputs.forEach` (source lines 87-99): an associated label, if
any, takes precedence over `getElementText`. -/
def mkInput (doc : DomNode) (d : ElemData) (cs : List DomNode) : Option ElementRecord :=
  let identifier := getElementIdentifier d
  let text :=
    match labelFor doc d.id with
    | some lab => jsTrim (listText lab.2)
    | none => getElementText doc d cs
  if text ≠ "" then
    some { element_type := jsToLower d.tagName ++ typeAnnot d
           text_content := text
           selector_type := identifier.type
           selector_value := identifier.value }
  else none

/-- The form-inputs pass (source lines 86-99). -/
def inputsPass (doc : DomNode) : List ElementRecord :=
  ((elems doc).filter (fun p => inputSel p.1)).filterMap (fun p => mkInput doc p.1 p.2)

/-- Selector `input[type="checkbox"], input[type="radio"]` (line 102). -/
def checkboxRadioSel (d : ElemData) : Bool :=
  d.tagName == "INPUT" && (d.typeAttr == "checkbox" || d.typeAttr == "radio")

/-- Body of the `checkboxesAndRadios.forEach` (source lines 103-115); the
`[type="…"]` annotation is unconditional here (line 109). -/
def mkCheckboxRadio (doc : DomNode) (d : ElemData) (cs : List DomNode) : Option ElementRecord :=
  let identifier := getElementIdentifier d
  let text :=
    match labelFor doc d.id with
    | some lab => jsTrim (listText lab.2)
    | none => getElementText doc d cs
  if text ≠ "" then
    some { element_type := jsToLower d.tagName ++ "[type=\"" ++ jsType d ++ "\"]"
           text_content := text
           selector_type := identifier.type
           selector_value := identifier.value }
  else none

/-- The checkboxes-and-radios pass (source lines 102-115). -/
def checkboxesAndRadiosPass (doc : DomNode) : List ElementRecord :=
  ((elems doc).filter (fun p => checkboxRadioSel p.1)).filterMap
    (fun p => mkCheckboxRadio doc p.1 p.2)

/-- Body of the `selects.forEach` (source lines 119-130). -/
def mkSelect (doc : DomNode) (d : ElemData) (cs : List DomNode) : Option ElementRecord :=
  let identifier := getElementIdentifier d
  let text := getElementText doc d cs
  if text ≠ "" then
    some { element_type := "select"
           text_content := text
           selector_type := identifier.type
           selector_value := identifier.value }
  else none

/-- The selects pass (source lines 118-130). -/
def selectsPass (doc : DomNode) : List ElementRecord :=
  ((elems doc).filter (fun p => p.1.tagName == "SELECT")).filterMap
    (fun p => mkSelect doc p.1 p.2)

/-- Body of the `links.forEach` (source lines 134-145): the literal fallback
`[link]` is rejected in addition to the empty string. -/
def mkLink (doc : DomNode) (d : ElemData) (cs : List DomNode) : Option ElementRecord :=
  let identifier := getElementIdentifier d
  let text := getElementText doc d cs
  if text ≠ "" ∧ text ≠ "[link]" then
    some { element_type := "a"
           text_content := text
           selector_type := identifier.type
           selector_value := identifier.value }
  else none

/-- The links pass (source lines 133-145). -/
def linksPass (doc : DomNode) : List ElementRecord :=
  ((elems doc).filter (fun p => p.1.tagName == "A")).filterMap
    (fun p => mkLink doc p.1 p.2)

/-- Selector `h1, h2, h3, h4, h5, h6` (line 148). -/
def headingSel (d : ElemData) : Bool :=
  d.tagName == "H1" || d.tagName == "H2" || d.tagName == "H3"
    || d.tagName == "H4" || d.tagName == "H5" || d.tagName == "H6"

/-- Body of the `headings.forEach` (source lines 149-160): raw trimmed text,
no `getElementText`. -/
def mkHeading (d : ElemData) (cs : List DomNode) : Option ElementRecord :=
  let identifier := getElementIdentifier d
  let text := jsTrim (listText cs)
  if text ≠ "" then
    some { element_type := jsToLower d.tagName
           text_content := text
           selector_type := identifier.type
           selector_value := identifier.value }
  else none

/-- The headings pass (source lines 148-160). -/
def headingsPass (doc : DomNode) : List ElementRecord :=
  ((elems doc).filter (fun p => headingSel p.1)).filterMap (fun p => mkHeading p.1 p.2)

/-- Selector `p, span, div, label` (line 163). -/
def staticTextSel (d : ElemData) : Bool :=
  d.tagName == "P" || d.tagName == "SPAN" || d.tagName == "DIV" || d.tagName == "LABEL"

/-- `Array.from(element.childNodes).some(node => node.nodeType === Node.TEXT_NODE
&& node.textContent.trim() !== '')` (source lines 166-167). -/
def hasDirectText (cs : List DomNode) : Bool :=
  cs.any (fun n => match n with
    | .text s => jsTrim s != ""
    | .elem _ _ => false)

/-- Selector `button, input, select, a, h1, h2, h3, h4, h5, h6` used for the
`containsImportantElements` check (line 176). -/
def importantSel (d : ElemData) : Bool :=
  d.tagName == "BUTTON" || d.tagName == "INPUT" || d.tagName == "SELECT"
    || d.tagName == "A" || headingSel d

/-- Body of the `staticTexts.forEach` (source lines 164-188): requires a direct
text child, non-empty text strictly under 200 characters, and no descendant
matching the important-elements selector.  `element.querySelectorAll` matches
strict descendants only, hence `elemsList cs`.  The text is the raw trimmed
text content — this pass never calls `getElementText`, so no truncation. -/
def mkStaticText (d : ElemData) (cs : List DomNode) : Option ElementRecord :=
  if hasDirectText cs then
    let identifier := getElementIdentifier d
    let text := jsTrim (listText cs)
    if text ≠ "" ∧ text.length > 0 ∧ text.length < 200 then
      let containsImportantElements :=
        ((elemsList cs).filter (fun p => importantSel p.1)).length > 0
      if containsImportantElements then none
      else
        some { element_type := jsToLower d.tagName
               text_content := text
               selector_type := identifier.type
               selector_value := identifier.value }
    else none
  else none

/-- The generic static-text pass (source lines 163-188). -/
def staticTextsPass (doc : DomNode) : List ElementRecord :=
  ((elems doc).filter (fun p => staticTextSel p.1)).filterMap
    (fun p => mkStaticText p.1 p.2)

/-- Body of the `tableHeaders.forEach` (source lines 192-203). -/
def mkTableHeader (d : ElemData) (cs : List DomNode) : Option ElementRecord :=
  let identifier := getElementIdentifier d
  let text := jsTrim (listText cs)
  if text ≠ "" then
    some { element_type := "th"
           text_content := text
           selector_type := identifier.type
           selector_value := identifier.value }
  else none

/-- The table-headers pass (source lines 191-203). -/
def tableHeadersPass (doc : DomNode) : List ElementRecord :=
  ((elems doc).filter (fun p => p.1.tagName == "TH")).filterMap
    (fun p => mkTableHeader p.1 p.2)

/-- The full `elementsData` array after all eight passes, in push order. -/
def elementsData (doc : DomNode) : List ElementRecord :=
  buttonsPass doc ++ inputsPass doc ++ checkboxesAndRadiosPass doc
    ++ selectsPass doc ++ linksPass doc ++ headingsPass doc
    ++ staticTextsPass doc ++ tableHeadersPass doc

/-- `elementsData.filter(item => item.selector_type !== 'none')` (line 206). -/
def validElementsData (doc : DomNode) : List ElementRecord :=
  (elementsData doc).filter (fun item => item.selector_type != "none")

/-- One CSV field: enclosed in double quotes, internal double quotes doubled
(`item.field.replace(/"/g, '""')`, source lines 212-215). -/
def csvField (s : String) : String :=
  "\"" ++ jsEscapeQuotes s ++ "\""

/-- One CSV data row (source line 217), newline-terminated. -/
def csvRow (item : ElementRecord) : String :=
  csvField item.element_type ++ "," ++ csvField item.text_content ++ ","
    ++ csvField item.selector_type ++ "," ++ csvField item.selector_value ++ "\n"

/-- The CSV accumulation loop (source lines 209-218): starts from the header
line and appends one row per record. -/
def csvOf (records : List ElementRecord) : String :=
  records.foldl (fun csv item => csv ++ csvRow item)
    "Element Type,Text Content,Selector Type,Selector Value\n"

/-- `document.title.replace(/[^a-z0-9]/gi, '_').toLowerCase() || 'webpage'`
(source line 221). -/
def pageTitle (title : String) : String :=
  jsOr (jsToLower ⟨title.data.map (fun c => if c.isAlphanum then c else '_')⟩) "webpage"

/-- The observable outcome of one run: the CSV text handed to the download, the
filename, the two logged counts, and the function's return value. -/
structure ExtractionResult where
  csv : String
  filename : String
  extractedCount : Nat
  skippedCount : Nat
  returned : List ElementRecord
deriving Repr, DecidableEq

/-- `extractImportantElements()` (source lines 15-240).  The live document,
its title and the current date (`new Date().toISOString().slice(0, 10)`) are
explicit parameters; the download and the console lines are returned as data. -/
def extractImportantElements (doc : DomNode) (title date : String) : ExtractionResult :=
  { csv := csvOf (validElementsData doc)
    filename := pageTitle title ++ "_elements_" ++ date ++ ".csv"
    extractedCount := (validElementsData doc).length
    skippedCount := (elementsData doc).length - (validElementsData doc).length
    returned := elementsData doc }

/-! ### Concrete documents used to instantiate the theorems -/

/-- A page holding one button with an id (the spec's §8 scenario). -/
def exButtonDoc : DomNode :=
  .elem { tagName := "BODY" }
    [.elem { tagName := "BUTTON", id := "submit-btn" } [.text "Submit"]]

/-- The record the button above produces (the reflected `button.type` defaults
to `submit`). -/
def submitRecord : ElementRecord :=
  { element_type := "button[type=\"submit\"]", text_content := "Submit"
    selector_type := "id", selector_value := "submit-btn" }

/-- A page holding one div with text but neither id nor class. -/
def exNoIdDoc : DomNode :=
  .elem { tagName := "BODY" } [.elem { tagName := "DIV" } [.text "hello"]]

/-- The sentinel record the no-identifier div produces. -/
def noIdRecord : ElementRecord :=
  { element_type := "div", text_content := "hello"
    selector_type := "none", selector_value := "no-id-or-class" }

/-- 150 copies of `a`: longer than the 100-character truncation bound and
shorter than the 200-character static-text admission bound. -/
def longText150 : String := ⟨List.replicate 150 'a'⟩

/-- A page holding one paragraph whose text is 150 characters long. -/
def exLongTextDoc : DomNode :=
  .elem { tagName := "BODY" }
    [.elem { tagName := "P", id := "long-text" } [.text longText150]]

/-- A select with an id and no associated label. -/
def selData : ElemData := { tagName := "SELECT", id := "country" }

/-- Thirteen 8-character options: the joined option text is 128 characters. -/
def selChildren : List DomNode :=
  List.replicate 13 (DomNode.elem { tagName := "OPTION" } [.text "abcdefgh"])

/-- A page that is just the select above. -/
def exSelectDoc : DomNode := .elem selData selChildren

/-- The record the select produces: joined options, truncated. -/
def selRecord : ElementRecord :=
  { element_type := "select", text_content := (optionsText selChildren).take 100 ++ "..."
    selector_type := "id", selector_value := "country" }

/-- A text input with both a placeholder and an associated label. -/
def inputData : ElemData :=
  { tagName := "INPUT", typeAttr := "text", id := "username", placeholder := "Enter name" }

/-- A page holding the input above and its `<label for="username">`. -/
def exInputDoc : DomNode :=
  .elem { tagName := "BODY" }
    [.elem inputData [],
     .elem { tagName := "LABEL", htmlFor := some "username" } [.text "User Name"]]

/-- The record the labelled input produces. -/
def inputRecord : ElementRecord :=
  { element_type := "input[type=\"text\"]", text_content := "User Name"
    selector_type := "id", selector_value := "username" }

/-- A checkbox without an id (so `element.id` is `""`). -/
def checkboxData : ElemData :=
  { tagName := "INPUT", typeAttr := "checkbox", className := some "chk" }

/-- A page holding the id-less checkbox and a label with an explicitly empty
`for` attribute — which `label[for=""]` matches. -/
def exCheckboxDoc : DomNode :=
  .elem { tagName := "BODY" }
    [.elem checkboxData [],
     .elem { tagName := "LABEL", htmlFor := some "" } [.text "I agree"]]

/-- The record the id-less checkbox produces. -/
def checkboxRecord : ElementRecord :=
  { element_type := "input[type=\"checkbox\"]", text_content := "I agree"
    selector_type := "class", selector_value := "chk" }

/-! ### Helper lemmas -/

/-- A string is non-empty iff its length is positive. -/
theorem ne_empty_iff_length_pos (s : String) : s ≠ "" ↔ 0 < s.length := by
  rw [ne_eq, String.ext_iff]
  show ¬ s.data = [] ↔ 0 < s.data.length
  rw [List.length_pos]

/-- `String.join` distributes over cons. -/
theorem join_cons (a : String) (l : List String) :
    String.join (a :: l) = a ++ String.join l := by
  cases a with
  | mk d =>
    simp [String.join_eq]
    rfl

/-- The CSV accumulation loop appends one row per record to its seed. -/
theorem foldl_row_eq_join (l : List ElementRecord) : ∀ init : String,
    l.foldl (fun acc item => acc ++ csvRow item) init = init ++ String.join (l.map csvRow) := by
  induction l with
  | nil =>
    intro init
    show init = init ++ ""
    cases init with
    | mk d => show String.mk d = ⟨d ++ []⟩
              rw [List.append_nil]
  | cons x xs ih =>
    intro init
    rw [List.foldl_cons, ih, List.map_cons, join_cons, String.append_assoc]

/-- A record excluded by the `selector_type !== 'none'` filter never reappears:
no record whose selector type is the sentinel is in `validElementsData`. -/
theorem not_mem_valid_of_none (doc : DomNode) (r : ElementRecord)
    (hnone : r.selector_type = "none") : r ∉ validElementsData doc := by
  intro hmem
  simp only [validElementsData] at hmem
  have h2 := (List.mem_filter.mp hmem).2
  rw [hnone] at h2
  simp at h2

/-- Any record `mkButton` produces has non-empty text. -/
theorem mkButton_text_ne (doc : DomNode) (d : ElemData) (cs : List DomNode)
    (r : ElementRecord) (h : mkButton doc d cs = some r) : r.text_content ≠ "" := by
  simp only [mkButton] at h
  split at h
  · rename_i hc
    cases h
    exact hc
  · simp at h

/-- Any record `mkInput` produces has non-empty text. -/
theorem mkInput_text_ne (doc : DomNode) (d : ElemData) (cs : List DomNode)
    (r : ElementRecord) (h : mkInput doc d cs = some r) : r.text_content ≠ "" := by
  simp only [mkInput] at h
  split at h
  · rename_i hc
    cases h
    exact hc
  · simp at h

/-- Any record `mkCheckboxRadio` produces has non-empty text. -/
theorem mkCheckboxRadio_text_ne (doc : DomNode) (d : ElemData) (cs : List DomNode)
    (r : ElementRecord) (h : mkCheckboxRadio doc d cs = some r) : r.text_content ≠ "" := by
  simp only [mkCheckboxRadio] at h
  split at h
  · rename_i hc
    cases h
    exact hc
  · simp at h

/-- Any record `mkSelect` produces has non-empty text. -/
theorem mkSelect_text_ne (doc : DomNode) (d : ElemData) (cs : List DomNode)
    (r : ElementRecord) (h : mkSelect doc d cs = some r) : r.text_content ≠ "" := by
  simp only [mkSelect] at h
  split at h
  · rename_i hc
    cases h
    exact hc
  · simp at h

/-- Any record `mkLink` produces has non-empty text. -/
theorem mkLink_text_ne (doc : DomNode) (d : ElemData) (cs : List DomNode)
    (r : ElementRecord) (h : mkLink doc d cs = some r) : r.text_content ≠ "" := by
  simp only [mkLink] at h
  split at h
  · rename_i hc
    cases h
    exact hc.1
  · simp at h

/-- Any record `mkHeading` produces has non-empty text. -/
theorem mkHeading_text_ne (d : ElemData) (cs : List DomNode)
    (r : ElementRecord) (h : mkHeading d cs = some r) : r.text_content ≠ "" := by
  simp only [mkHeading] at h
  split at h
  · rename_i hc
    cases h
    exact hc
  · simp at h

/-- Any record `mkStaticText` produces has non-empty text. -/
theorem mkStaticText_text_ne (d : ElemData) (cs : List DomNode)
    (r : ElementRecord) (h : mkStaticText d cs = some r) : r.text_content ≠ "" := by
  simp only [mkStaticText] at h
  split at h
  · split at h
    · rename_i hc
      split at h
      · simp at h
      · cases h
        exact hc.1
    · simp at h
  · simp at h

/-- Any record `mkTableHeader` produces has non-empty text. -/
theorem mkTableHeader_text_ne (d : ElemData) (cs : List DomNode)
    (r : ElementRecord) (h : mkTableHeader d cs = some r) : r.text_content ≠ "" := by
  simp only [mkTableHeader] at h
  split at h
  · rename_i hc
    cases h
    exact hc
  · simp at h

/-! ### Claim theorems -/

/-- C1.  Identifier resolution: for every node, a non-empty `id` yields the
`id` selector with that id (any class is ignored); otherwise a class attribute
that is a string with a non-empty trimmed form yields the `class` selector
with the trimmed class string; otherwise the `none`/`no-id-or-class` sentinel.
The function is total, so it always returns a value. -/
theorem identifier_resolution (d : ElemData) :
    getElementIdentifier d =
      if d.id = "" then
        (match d.className with
         | some c =>
           if jsTrim c = "" then { type := "none", value := "no-id-or-class" }
           else { type := "class", value := jsTrim c }
         | none => { type := "none", value := "no-id-or-class" })
      else { type := "id", value := d.id } := by
  unfold getElementIdentifier
  by_cases hid : d.id = ""
  · simp only [hid, ne_eq, not_true_eq_false, if_false, if_true]
    cases hc : d.className with
    | none => simp
    | some c =>
      by_cases ht : jsTrim c = ""
      · simp [ht]
      · have hc0 : c ≠ "" := by
          intro he
          subst he
          exact ht rfl
        simp [ht, hc0]
  · simp [hid]

/-- C2.  Filtering invariant: every record of the filtered list that feeds the
CSV rows has a selector type other than `none`, and every collected record
whose selector type is `none` is absent from that filtered list. -/
theorem none_records_filtered (doc : DomNode) :
    (∀ r ∈ validElementsData doc, r.selector_type ≠ "none") ∧
    (∀ r ∈ elementsData doc, r.selector_type = "none" → r ∉ validElementsData doc) := by
  constructor
  · intro r hr
    simp only [validElementsData] at hr
    have h2 := (List.mem_filter.mp hr).2
    simpa using h2
  · intro r _ hnone
    exact not_mem_valid_of_none doc r hnone

/-- Witness for C2 at a concrete page: the identifier-less div's record is
collected but absent from the filtered list. -/
theorem none_records_filtered_witness : noIdRecord ∉ validElementsData exNoIdDoc :=
  (none_records_filtered exNoIdDoc).2 noIdRecord (by decide) rfl

/-- C4.  CSV serialization: the output is the header line followed, for each
surviving record in sequence order, by one newline-terminated row of the four
fields, each enclosed in double quotes with internal double quotes doubled. -/
theorem csv_serialization (doc : DomNode) :
    csvOf (validElementsData doc) =
      "Element Type,Text Content,Selector Type,Selector Value\n"
        ++ String.join ((validElementsData doc).map (fun item =>
          "\"" ++ jsEscapeQuotes item.element_type ++ "\"" ++ ","
            ++ ("\"" ++ jsEscapeQuotes item.text_content ++ "\"") ++ ","
            ++ ("\"" ++ jsEscapeQuotes item.selector_type ++ "\"") ++ ","
            ++ ("\"" ++ jsEscapeQuotes item.selector_value ++ "\"") ++ "\n")) := by
  rw [csvOf, foldl_row_eq_join]
  rfl

/-- C8.  Non-empty-text invariant: every record any collection pass appends
has a non-empty `text_content`. -/
theorem collected_text_nonempty (doc : DomNode) :
    ∀ r ∈ elementsData doc, r.text_content ≠ "" := by
  intro r hr
  simp only [elementsData, List.mem_append] at hr
  rcases hr with ((((((h | h) | h) | h) | h) | h) | h) | h
  · simp only [buttonsPass, List.mem_filterMap] at h
    obtain ⟨p, -, hp⟩ := h
    exact mkButton_text_ne doc p.1 p.2 r hp
  · simp only [inputsPass, List.mem_filterMap] at h
    obtain ⟨p, -, hp⟩ := h
    exact mkInput_text_ne doc p.1 p.2 r hp
  · simp only [checkboxesAndRadiosPass, List.mem_filterMap] at h
    obtain ⟨p, -, hp⟩ := h
    exact mkCheckboxRadio_text_ne doc p.1 p.2 r hp
  · simp only [selectsPass, List.mem_filterMap] at h
    obtain ⟨p, -, hp⟩ := h
    exact mkSelect_text_ne doc p.1 p.2 r hp
  · simp only [linksPass, List.mem_filterMap] at h
    obtain ⟨p, -, hp⟩ := h
    exact mkLink_text_ne doc p.1 p.2 r hp
  · simp only [headingsPass, List.mem_filterMap] at h
    obtain ⟨p, -, hp⟩ := h
    exact mkHeading_text_ne p.1 p.2 r hp
  · simp only [staticTextsPass, List.mem_filterMap] at h
    obtain ⟨p, -, hp⟩ := h
    exact mkStaticText_text_ne p.1 p.2 r hp
  · simp only [tableHeadersPass, List.mem_filterMap] at h
    obtain ⟨p, -, hp⟩ := h
    exact mkTableHeader_text_ne p.1 p.2 r hp

/-- Witness for C8 at a concrete page. -/
theorem collected_text_nonempty_witness : submitRecord.text_content ≠ "" :=
  collected_text_nonempty exButtonDoc submitRecord (by decide)

/-- C9.  Determinism: for a fixed document tree the CSV text, the returned
list and the two counts do not depend on the run date; the filename is the
sanitized title, the `_elements_` infix, the run date and the `.csv` suffix,
so two runs differ at most in the filename's date component. -/
theorem extraction_deterministic (doc : DomNode) (title d1 d2 : String) :
    (extractImportantElements doc title d1).csv = (extractImportantElements doc title d2).csv ∧
    (extractImportantElements doc title d1).returned
      = (extractImportantElements doc title d2).returned ∧
    (extractImportantElements doc title d1).extractedCount
      = (extractImportantElements doc title d2).extractedCount ∧
    (extractImportantElements doc title d1).skippedCount
      = (extractImportantElements doc title d2).skippedCount ∧
    (extractImportantElements doc title d1).filename
      = pageTitle title ++ "_elements_" ++ d1 ++ ".csv" :=
  ⟨rfl, rfl, rfl, rfl, rfl⟩

/-- C10.  Return-value shape: the function returns the full unfiltered
collected sequence, every sentinel record excluded from the CSV included, and
the returned length minus the number of CSV data rows (the filtered list's
length) is the skipped count reported to the console. -/
theorem return_value_shape (doc : DomNode) (title date : String) :
    (extractImportantElements doc title date).returned = elementsData doc ∧
    (∀ r ∈ elementsData doc, r.selector_type = "none" →
      r ∈ (extractImportantElements doc title date).returned ∧ r ∉ validElementsData doc) ∧
    (extractImportantElements doc title date).returned.length - (validElementsData doc).length
      = (extractImportantElements doc title date).skippedCount := by
  refine ⟨rfl, ?_, rfl⟩
  intro r hr hnone
  exact ⟨hr, not_mem_valid_of_none doc r hnone⟩

/-- Witness for C10 at a concrete page. -/
theorem return_value_shape_witness :
    noIdRecord ∈ (extractImportantElements exNoIdDoc "t" "2026-01-01").returned ∧
    noIdRecord ∉ validElementsData exNoIdDoc :=
  (return_value_shape exNoIdDoc "t" "2026-01-01").2.1 noIdRecord (by decide) rfl

/-- C7.  Generic-text pass admission: the pass maps over exactly the
paragraph/span/div/label elements, and such a node yields a record exactly
when it has a direct text child with non-empty trimmed content, its own
trimmed combined text is non-empty and strictly shorter than 200 characters,
and it has no descendant matching the button/input/select/link/heading
selectors. -/
theorem static_pass_admission (doc : DomNode) (d : ElemData) (cs : List DomNode) :
    staticTextsPass doc =
      ((elems doc).filter (fun p => staticTextSel p.1)).filterMap
        (fun p => mkStaticText p.1 p.2) ∧
    ((mkStaticText d cs).isSome ↔
      (hasDirectText cs = true ∧
       (jsTrim (listText cs) ≠ "" ∧ (jsTrim (listText cs)).length < 200) ∧
       (elemsList cs).filter (fun p => importantSel p.1) = [])) := by
  refine ⟨rfl, ?_⟩
  simp only [mkStaticText]
  cases hdt : hasDirectText cs with
  | false => simp [hdt]
  | true =>
    rw [if_pos rfl]
    by_cases h1 : jsTrim (listText cs) ≠ "" ∧ (jsTrim (listText cs)).length > 0
        ∧ (jsTrim (listText cs)).length < 200
    · rw [if_pos h1]
      by_cases h2 : ((elemsList cs).filter (fun p => importantSel p.1)).length > 0
      · rw [if_pos h2]
        simp only [Option.isSome_none, Bool.false_eq_true, false_iff]
        intro hcon
        rw [hcon.2.2] at h2
        simp at h2
      · rw [if_neg h2]
        simp only [Option.isSome_some, true_iff]
        exact ⟨by trivial, ⟨h1.1, h1.2.2⟩,
          List.length_eq_zero.mp (Nat.eq_zero_of_not_pos h2)⟩
    · rw [if_neg h1]
      simp only [Option.isSome_none, Bool.false_eq_true, false_iff]
      intro hcon
      exact h1 ⟨hcon.2.1.1, (ne_empty_iff_length_pos _).mp hcon.2.1.1, hcon.2.1.2⟩

set_option maxRecDepth 100000 in
/-- C3 counterexample: a paragraph whose trimmed text is 150 characters long
(under the 200-character admission bound) is emitted by the generic-text pass
with its full text, not truncated to 100 characters plus an ellipsis. -/
theorem truncation_counterexample :
    (staticTextsPass exLongTextDoc).map (fun r => r.text_content) = [longText150] ∧
    jsTrim longText150 = longText150 ∧
    100 < longText150.length ∧
    longText150 ≠ longText150.take 100 ++ "..." :=
  ⟨by decide, by decide, by decide, by decide⟩

/-- C3 (amended).  Truncation law: a record produced by the select-options
extraction (a select with no associated label) has its joined option text
truncated to its first 100 characters plus `...` whenever that text is longer
than 100 characters; a record produced by the generic-text pass instead
carries its trimmed text unchanged (the pass admits only texts shorter than
200 characters and never truncates). -/
theorem truncation_amended (doc : DomNode) (d : ElemData) (cs : List DomNode)
    (r : ElementRecord) :
    (d.tagName = "SELECT" → mkSelect doc d cs = some r → labelFor doc d.id = none →
      100 < (optionsText cs).length →
      r.text_content = (optionsText cs).take 100 ++ "...") ∧
    (mkStaticText d cs = some r → r.text_content = jsTrim (listText cs)) := by
  constructor
  · intro htag h hl hlen
    have hget : getElementText doc d cs = truncate100 (optionsText cs) := by
      simp [getElementText, htag, hl]
    simp only [mkSelect, hget] at h
    split at h
    · cases h
      show truncate100 (optionsText cs) = _
      simp [truncate100, hlen]
    · simp at h
  · intro h
    simp only [mkStaticText] at h
    split at h
    · split at h
      · split at h
        · simp at h
        · cases h
          rfl
      · simp at h
    · simp at h

set_option maxRecDepth 100000 in
/-- Witness for the amended C3 at a concrete select: thirteen 8-character
options join to 128 characters, and the emitted text is the first 100
characters followed by the ellipsis. -/
theorem truncation_amended_witness :
    selRecord.text_content = (optionsText selChildren).take 100 ++ "..." :=
  (truncation_amended exSelectDoc selData selChildren selRecord).1 rfl (by decide) rfl (by decide)

/-- C5 counterexample: a text input with placeholder `Enter name` and an
associated `<label for="username">User Name</label>`; the form-inputs pass
emits the label text, not the placeholder. -/
theorem input_labeling_counterexample :
    (inputsPass exInputDoc).map (fun r => r.text_content) = ["User Name"] ∧
    inputData.placeholder = "Enter name" ∧
    ("User Name" : String) ≠ "Enter name" :=
  ⟨by decide, rfl, by decide⟩

/-- C5 (amended).  Text-input labeling: for every record the form-inputs pass
emits, the text is the trimmed content of the first label whose `for`
attribute equals the element's id, when one exists; otherwise, an `INPUT`
element contributes its placeholder if non-empty and the bracketed
`[<type> input]` fallback if empty, while a `TEXTAREA` element contributes its
own trimmed (100-character-truncated) text content. -/
theorem input_labeling_amended (doc : DomNode) (d : ElemData) (cs : List DomNode)
    (r : ElementRecord) (hsel : inputSel d = true) (h : mkInput doc d cs = some r) :
    r.text_content =
      match labelFor doc d.id with
      | some lab => jsTrim (listText lab.2)
      | none =>
        if d.tagName = "INPUT" then jsOr d.placeholder ("[" ++ jsType d ++ " input]")
        else truncate100 (jsTrim (listText cs)) := by
  simp only [mkInput] at h
  cases hl : labelFor doc d.id with
  | some lab =>
    simp only [hl] at h
    split at h
    · cases h
      rfl
    · simp at h
  | none =>
    simp only [hl] at h
    split at h
    · cases h
      show getElementText doc d cs = _
      simp only [inputSel, Bool.or_eq_true, Bool.and_eq_true, beq_iff_eq] at hsel
      rcases hsel with ⟨htag, hty⟩ | htag
      · rcases hty with ((((((hty | hty) | hty) | hty) | hty) | hty) | hty) <;>
          simp [getElementText, jsType, htag, hty]
      · simp [getElementText, jsType, htag]
    · simp at h

/-- Witness for the amended C5: the labelled text input's record carries the
label text. -/
theorem input_labeling_amended_witness : inputRecord.text_content = "User Name" :=
  (input_labeling_amended exInputDoc inputData [] inputRecord (by decide)
    (by decide)).trans (by decide)

/-- C6 counterexample: a checkbox without an id (`element.id` is `""`), beside
a label with an explicitly empty `for` attribute.  The lookup
`label[for=""]` matches that label, so the pass emits `I agree`, not the
`[checkbox]` fallback the claim requires for id-less inputs. -/
theorem checkbox_labeling_counterexample :
    (checkboxesAndRadiosPass exCheckboxDoc).map (fun r => r.text_content) = ["I agree"] ∧
    checkboxData.id = "" ∧
    ("I agree" : String) ≠ "[checkbox]" :=
  ⟨by decide, rfl, by decide⟩

/-- C6 (amended).  Checkbox/radio labeling: for every record the
checkboxes-and-radios pass emits, the text is the trimmed content of the first
label whose `for` attribute (when present) exactly equals the input's id —
an input without an id still associates with a label carrying an explicitly
empty `for` attribute — and the bracketed `[checkbox]`/`[radio]` fallback is
used only when no such label exists. -/
theorem checkbox_labeling_amended (doc : DomNode) (d : ElemData) (cs : List DomNode)
    (r : ElementRecord) (hsel : checkboxRadioSel d = true)
    (h : mkCheckboxRadio doc d cs = some r) :
    r.text_content =
      match labelFor doc d.id with
      | some lab => jsTrim (listText lab.2)
      | none => "[" ++ jsType d ++ "]" := by
  simp only [mkCheckboxRadio] at h
  cases hl : labelFor doc d.id with
  | some lab =>
    simp only [hl] at h
    split at h
    · cases h
      rfl
    · simp at h
  | none =>
    simp only [hl] at h
    split at h
    · cases h
      show getElementText doc d cs = _
      simp only [checkboxRadioSel, Bool.and_eq_true, Bool.or_eq_true, beq_iff_eq] at hsel
      obtain ⟨htag, hty⟩ := hsel
      rcases hty with hty | hty <;> simp [getElementText, jsType, htag, hty, hl]
    · simp at h

/-- Witness for the amended C6: the id-less checkbox's record carries the text
of the empty-`for` label. -/
theorem checkbox_labeling_amended_witness : checkboxRecord.text_content = "I agree" :=
  (checkbox_labeling_amended exCheckboxDoc checkboxData [] checkboxRecord (by decide)
    (by decide)).trans (by decide)

/-- Witness for C7 at a concrete node: a div with one non-empty direct text
child, short text, and no important descendants yields a record. -/
theorem static_pass_admission_witness :
    (mkStaticText { tagName := "DIV" } [DomNode.text "hello"]).isSome = true :=
  ((static_pass_admission exNoIdDoc { tagName := "DIV" } [DomNode.text "hello"]).2).mpr
    ⟨by decide, ⟨by decide, by decide⟩, rfl⟩
